import Mathlib

/-!
Verification of the qDecoder obstack accumulator (src/src/qObstack.c).

Shallow embedding conventions:
* Bytes are `Nat`; a memory region is a `List Nat`.
* A C pointer that may be `NULL` is an `Option`; `none` models `NULL`.
* Stateful C functions become pure functions returning `result × new state`;
  the accumulator handle is threaded explicitly.
* `malloc` outcomes are an explicit `allocOk : Bool` parameter on the
  operations that allocate.
* The Entry List collaborator (`qEntry.c`) is not part of the excerpt, so its
  operations are modelled from the specification's collaborator contract.
-/

namespace QDecoder

/-- One stored chunk (`Q_NLOBJ`): the copied bytes and the recorded size. -/
structure Q_NLOBJ where
  object : List Nat
  size : Nat
deriving Repr, DecidableEq

/-- The Entry List (`Q_ENTRY`) backing an obstack: chunks in insertion order
plus the running byte total and chunk count it maintains. -/
structure Q_ENTRY where
  objects : List Q_NLOBJ
  size : Nat
  num : Nat
deriving Repr, DecidableEq

/-- Modelled from the spec: `qEntryPut` (from `qEntry.c`, absent from the
excerpt) appends a new chunk holding a copy of `bytes[0..size)` at the end of
the list, increases the running size by `size` and the count by 1, and
reports success. The label is irrelevant for this use case and the overwrite
flag is always `false` here. -/
def qEntryPut (entry : Q_ENTRY) (_name : String) (object : List Nat)
    (size : Nat) (_update : Bool) : Bool × Q_ENTRY :=
  (true,
   { objects := entry.objects ++ [⟨object.take size, size⟩],
     size := entry.size + size,
     num := entry.num + 1 })

/-- Modelled from the spec: forward iteration over the Entry List from first
to last in insertion order, copying each chunk's `size` bytes consecutively —
the byte sequence the copy loop of `qObstackFinish` produces. -/
def qEntryConcat (entry : Q_ENTRY) : List Nat :=
  (entry.objects.map (fun obj => obj.object.take obj.size)).flatten

/-- The accumulator (`Q_OBSTACK`): the owned Entry List and the optional
cached finalized buffer (`final`, `NULL` when absent). -/
structure Q_OBSTACK where
  stack : Q_ENTRY
  final : Option (List Nat)
deriving Repr, DecidableEq

/-- Embeds `qObstackInit`: allocates a fresh accumulator with an empty Entry List
and no cached buffer; returns `NULL` when allocation fails. -/
def qObstackInit (allocOk : Bool) : Option Q_OBSTACK :=
  if allocOk then some { stack := ⟨[], 0, 0⟩, final := none } else none

/-- The throwaway label the obstack passes to the Entry List for every
chunk; ordering never depends on it. -/
def emptyLabel : String := ""

/-- Embeds `qObstackGrow`: rejects a `NULL` handle, a `NULL` object, or a
non-positive size (for the unsigned `size_t`, `size <= 0` means `size = 0`)
without touching the state; otherwise forwards to `qEntryPut` with an empty
label. -/
def qObstackGrow (obstack : Option Q_OBSTACK) (object : Option (List Nat))
    (size : Nat) : Bool × Option Q_OBSTACK :=
  match obstack, object with
  | none, _ => (false, obstack)
  | some _, none => (false, obstack)
  | some ob, some bytes =>
    if size = 0 then (false, obstack)
    else
      let r := qEntryPut ob.stack emptyLabel bytes size false
      (r.1, some { ob with stack := r.2 })

/-- C `strlen`: the number of bytes before the first zero byte. -/
def strlen (s : List Nat) : Nat := (s.takeWhile (fun b => b ≠ 0)).length

/-- Embeds `qObstackGrowStr`: computes `strlen str` before any validation (the
argument is a genuine string here, i.e. non-NULL — the C code would
dereference a NULL pointer inside `strlen`) and forwards to `qObstackGrow`. -/
def qObstackGrowStr (obstack : Option Q_OBSTACK) (str : List Nat) :
    Bool × Option Q_OBSTACK :=
  qObstackGrow obstack (some str) (strlen str)

/-- Embeds `vsnprintf` into the 1024-byte scratch buffer of `qObstackGrowStrf`:
`rendered` is the full rendering of the format string with its arguments;
the buffer receives at most 1023 of its bytes plus a terminator. -/
def vsnprintf1024 (rendered : List Nat) : List Nat := rendered.take 1023

/-- Embeds `qObstackGrowStrf`: rejects a `NULL` handle, renders into the bounded
scratch buffer (silent truncation), then forwards the scratch buffer and its
`strlen` to `qObstackGrow`. -/
def qObstackGrowStrf (obstack : Option Q_OBSTACK) (rendered : List Nat) :
    Bool × Option Q_OBSTACK :=
  match obstack with
  | none => (false, obstack)
  | some _ =>
    let str := vsnprintf1024 rendered
    qObstackGrow obstack (some str) (strlen str)

/-- Embeds `qObstackFinish`: `NULL` handle fails; otherwise the previously cached
buffer (if any) is freed first, then a buffer of `stack->size + 1` bytes is
allocated — on allocation failure the cache slot is left `NULL` and the call
fails; on success the chunks are copied in insertion order, a zero terminator
is appended, and the result is cached and returned. -/
def qObstackFinish (obstack : Option Q_OBSTACK) (allocOk : Bool) :
    Option (List Nat) × Option Q_OBSTACK :=
  match obstack with
  | none => (none, obstack)
  | some ob =>
    if allocOk then
      let buf := qEntryConcat ob.stack ++ [0]
      (some buf, some { ob with final := some buf })
    else
      (none, some { ob with final := none })

/-- Embeds `qObstackGetFinal`: `NULL` handle fails; when no buffer is cached it
calls `qObstackFinish` (ignoring its return value) and then returns whatever
the cache slot now holds; otherwise it returns the cached buffer unchanged. -/
def qObstackGetFinal (obstack : Option Q_OBSTACK) (allocOk : Bool) :
    Option (List Nat) × Option Q_OBSTACK :=
  match obstack with
  | none => (none, obstack)
  | some ob =>
    if ob.final = none then
      let st := (qObstackFinish obstack allocOk).2
      (st.bind Q_OBSTACK.final, st)
    else
      (ob.final, obstack)

/-- Embeds `qObstackGetSize`: the Entry List's running byte total, 0 on `NULL`. -/
def qObstackGetSize (obstack : Option Q_OBSTACK) : Nat :=
  match obstack with
  | none => 0
  | some ob => ob.stack.size

/-- Embeds `qObstackGetNum`: the Entry List's running chunk count, 0 on `NULL`. -/
def qObstackGetNum (obstack : Option Q_OBSTACK) : Nat :=
  match obstack with
  | none => 0
  | some ob => ob.stack.num

/-- Embeds `qObstackFree`: fails on a `NULL` handle; otherwise releases the Entry
List, the cached buffer and the accumulator itself (the handle is gone). -/
def qObstackFree (obstack : Option Q_OBSTACK) : Bool × Option Q_OBSTACK :=
  match obstack with
  | none => (false, obstack)
  | some _ => (true, none)

/-- The stored chunk corresponding to growing the bytes `c` with their exact
length. -/
def mkNLObj (c : List Nat) : Q_NLOBJ := { object := c, size := c.length }

/-- The accumulator state holding exactly the chunks `cs` (in insertion
order, each stored with its exact length) and cached buffer `fin` — the state
reached from a fresh accumulator by successfully growing each chunk. -/
def mkObstack (cs : List (List Nat)) (fin : Option (List Nat)) : Q_OBSTACK :=
  { stack :=
      { objects := cs.map mkNLObj,
        size := (cs.map List.length).sum,
        num := cs.length },
    final := fin }

/-- Folding a sequence of `qObstackGrow` calls, each chunk grown with its
exact byte length. -/
def growAll (obstack : Option Q_OBSTACK) (cs : List (List Nat)) :
    Option Q_OBSTACK :=
  cs.foldl (fun ob c => (qObstackGrow ob (some c) c.length).2) obstack

lemma take_strlen (s : List Nat) :
    s.take (strlen s) = s.takeWhile (fun b => b ≠ 0) := by
  induction s with
  | nil => rfl
  | cons a s ih =>
    by_cases h : a = 0
    · simp [strlen, List.takeWhile, h]
    · simpa [strlen, List.takeWhile, h] using ih

lemma grow_mkObstack (cs : List (List Nat)) (fin : Option (List Nat))
    (c : List Nat) (hc : c ≠ []) :
    qObstackGrow (some (mkObstack cs fin)) (some c) c.length
      = (true, some (mkObstack (cs ++ [c]) fin)) := by
  have hlen : c.length ≠ 0 := by simpa using hc
  simp [qObstackGrow, qEntryPut, mkObstack, mkNLObj, hlen]

lemma growAll_mkObstack (cs2 cs : List (List Nat)) (fin : Option (List Nat))
    (h : ∀ c ∈ cs2, c ≠ []) :
    growAll (some (mkObstack cs fin)) cs2 = some (mkObstack (cs ++ cs2) fin) := by
  induction cs2 generalizing cs with
  | nil => simp [growAll]
  | cons c cs2 ih =>
    have hc : c ≠ [] := h c (by simp)
    have hrest : ∀ x ∈ cs2, x ≠ [] := fun x hx => h x (by simp [hx])
    have hstep := grow_mkObstack cs fin c hc
    calc growAll (some (mkObstack cs fin)) (c :: cs2)
        = growAll ((qObstackGrow (some (mkObstack cs fin)) (some c) c.length).2)
            cs2 := rfl
      _ = growAll (some (mkObstack (cs ++ [c]) fin)) cs2 := by rw [hstep]
      _ = some (mkObstack ((cs ++ [c]) ++ cs2) fin) := ih (cs ++ [c]) hrest
      _ = some (mkObstack (cs ++ c :: cs2) fin) := by simp

lemma qEntryConcat_mkObstack (cs : List (List Nat)) (fin : Option (List Nat)) :
    qEntryConcat (mkObstack cs fin).stack = cs.flatten := by
  simp only [qEntryConcat, mkObstack, List.map_map]
  have hid : ((fun obj : Q_NLOBJ => obj.object.take obj.size) ∘ mkNLObj) = id := by
    funext c
    simp [mkNLObj]
  rw [hid, List.map_id]

/-- C1: for an accumulator holding chunks `c_1..c_n` (any `n ≥ 0`, any cached
buffer), `finish` (with the allocation succeeding) returns the buffer made of
the concatenation of the chunks in insertion order followed by a single zero
terminator; its length is the total chunk size plus one; for `n = 0` the
result is the one-byte buffer `[0]`, not `NULL`. -/
theorem finish_concatenation (cs : List (List Nat)) (fin : Option (List Nat)) :
    qObstackFinish (some (mkObstack cs fin)) true
      = (some (cs.flatten ++ [0]),
         some (mkObstack cs (some (cs.flatten ++ [0])))) ∧
    (cs.flatten ++ [0]).length = (cs.map List.length).sum + 1 ∧
    (qObstackFinish (some (mkObstack [] fin)) true).1 = some [0] := by
  refine ⟨?_, by simp, ?_⟩
  · simp [qObstackFinish, qEntryConcat_mkObstack]
    rfl
  · simp [qObstackFinish, qEntryConcat, mkObstack]

/-- C3 counterexample: an accumulator with cached buffer `[65, 0]` on which
the allocation inside `finish` fails is NOT left unchanged — the claim that
all existing state is left untouched fails at this input. -/
theorem finish_allocFail_counterexample :
    qObstackFinish (some (mkObstack [[65]] (some [65, 0]))) false
      ≠ (none, some (mkObstack [[65]] (some [65, 0]))) := by
  decide

/-- C3 amended: when the allocation inside `finish` fails on a non-null
accumulator, `finish` returns `NULL` and leaves the chunks and bookkeeping
unchanged, but the previously cached finalized buffer has already been freed
and the cache slot reset to `NULL`. -/
theorem finish_allocFail_amended (ob : Q_OBSTACK) :
    qObstackFinish (some ob) false = (none, some { ob with final := none }) :=
  rfl

/-- C4: `grow` on a `NULL` handle, a `NULL` byte pointer, or size 0 (the only
`size_t` value with `size <= 0`) fails and returns the state unchanged; a
call meeting the precondition succeeds with `totalSize` increased by exactly
`size`, `chunkCount` by exactly 1, and the cached buffer untouched. -/
theorem grow_precondition_and_effects :
    (∀ (object : Option (List Nat)) (size : Nat),
        qObstackGrow none object size = (false, none)) ∧
    (∀ (ob : Option Q_OBSTACK) (size : Nat),
        qObstackGrow ob none size = (false, ob)) ∧
    (∀ (ob : Option Q_OBSTACK) (object : Option (List Nat)),
        qObstackGrow ob object 0 = (false, ob)) ∧
    (∀ (ob : Q_OBSTACK) (bytes : List Nat) (size : Nat), 0 < size →
        ∃ ob2 : Q_OBSTACK,
          qObstackGrow (some ob) (some bytes) size = (true, some ob2) ∧
          ob2.stack.size = ob.stack.size + size ∧
          ob2.stack.num = ob.stack.num + 1 ∧
          ob2.final = ob.final) := by
  refine ⟨fun object size => rfl, fun ob size => ?_, fun ob object => ?_, ?_⟩
  · cases ob <;> rfl
  · cases ob <;> [rfl; (cases object <;> simp [qObstackGrow])]
  · intro ob bytes size hsize
    refine ⟨{ ob with stack := (qEntryPut ob.stack emptyLabel bytes size false).2 }, ?_⟩
    have hne : size ≠ 0 := Nat.pos_iff_ne_zero.mp hsize
    simp [qObstackGrow, qEntryPut, hne]

/-- C4 witness: growing 2 bytes onto a fresh accumulator succeeds, raising
`totalSize` from 0 to 2 and `chunkCount` from 0 to 1. -/
theorem grow_precondition_and_effects_witness :
    ∃ ob2 : Q_OBSTACK,
      qObstackGrow (some (mkObstack [] none)) (some [65, 66]) 2
        = (true, some ob2) ∧
      ob2.stack.size = (mkObstack [] none).stack.size + 2 ∧
      ob2.stack.num = (mkObstack [] none).stack.num + 1 ∧
      ob2.final = (mkObstack [] none).final :=
  grow_precondition_and_effects.2.2.2 (mkObstack [] none) [65, 66] 2
    (by decide)

/-- C8: `free`, `grow` and `finish` on a `NULL` accumulator handle each
return their documented failure value (`false`, `false`, `NULL`) with no side
effect on any state. -/
theorem null_handle_failures :
    qObstackFree none = (false, none) ∧
    (∀ (object : Option (List Nat)) (size : Nat),
        qObstackGrow none object size = (false, none)) ∧
    (∀ allocOk : Bool, qObstackFinish none allocOk = (none, none)) := by
  exact ⟨rfl, fun object size => rfl, fun allocOk => rfl⟩

/-- C2: `getFinal` returns the cached buffer unchanged when one exists;
when none exists it behaves exactly as `finish` (result and state alike);
hence after a `finish` followed by a successful `grow`, `getFinal` still
returns the buffer computed before the new growth. -/
theorem getFinal_cache_semantics :
    (∀ (ob : Q_OBSTACK) (b : List Nat) (a : Bool), ob.final = some b →
        qObstackGetFinal (some ob) a = (some b, some ob)) ∧
    (∀ (ob : Q_OBSTACK) (a : Bool), ob.final = none →
        qObstackGetFinal (some ob) a = qObstackFinish (some ob) a) ∧
    (∀ (ob : Q_OBSTACK) (chunk : List Nat) (size : Nat) (a : Bool),
        (qObstackGrow (qObstackFinish (some ob) true).2 (some chunk) size).1
          = true →
        (qObstackGetFinal
            ((qObstackGrow (qObstackFinish (some ob) true).2 (some chunk)
                size).2) a).1
          = (qObstackFinish (some ob) true).1) := by
  refine ⟨?_, ?_, ?_⟩
  · intro ob b a h
    simp [qObstackGetFinal, h]
  · intro ob a h
    cases a <;> simp [qObstackGetFinal, qObstackFinish, h]
  · intro ob chunk size a h
    by_cases hs : size = 0
    · simp [qObstackFinish, qObstackGrow, hs] at h
    · simp [qObstackFinish, qObstackGrow, qEntryPut, qObstackGetFinal, hs]

/-- C2 witness: the cached-buffer path, the uncached path, and the staleness
scenario (finish, then grow one byte, then getFinal) at concrete inputs. -/
theorem getFinal_cache_semantics_witness :
    qObstackGetFinal (some (mkObstack [[65]] (some [66, 0]))) true
      = (some [66, 0], some (mkObstack [[65]] (some [66, 0]))) ∧
    qObstackGetFinal (some (mkObstack [[65]] none)) true
      = qObstackFinish (some (mkObstack [[65]] none)) true ∧
    (qObstackGetFinal
        ((qObstackGrow (qObstackFinish (some (mkObstack [] none)) true).2
            (some [67]) 1).2) true).1
      = (qObstackFinish (some (mkObstack [] none)) true).1 :=
  ⟨getFinal_cache_semantics.1 _ _ _ rfl,
   getFinal_cache_semantics.2.1 _ _ rfl,
   getFinal_cache_semantics.2.2 _ _ _ _ (by decide)⟩

/-- C5: after successfully growing chunks `c_1..c_n` onto a fresh
accumulator, `getSize` returns the sum of the chunk lengths and `getNum`
returns `n`; on a `NULL` handle both return 0. -/
theorem getSize_getNum_after_grows (cs : List (List Nat))
    (h : ∀ c ∈ cs, c ≠ []) :
    qObstackGetSize (growAll (qObstackInit true) cs)
      = (cs.map List.length).sum ∧
    qObstackGetNum (growAll (qObstackInit true) cs) = cs.length ∧
    qObstackGetSize none = 0 ∧ qObstackGetNum none = 0 := by
  have hinit : qObstackInit true = some (mkObstack [] none) := rfl
  rw [hinit, growAll_mkObstack cs [] none h]
  simp [qObstackGetSize, qObstackGetNum, mkObstack]

/-- C5 witness: growing the chunks `[65]` and `[66, 67]` gives size 3 and
count 2; the `NULL` queries give 0. -/
theorem getSize_getNum_after_grows_witness :
    qObstackGetSize (growAll (qObstackInit true) [[65], [66, 67]])
      = ([[65], [66, 67]].map List.length).sum ∧
    qObstackGetNum (growAll (qObstackInit true) [[65], [66, 67]]) = 2 ∧
    qObstackGetSize none = 0 ∧ qObstackGetNum none = 0 :=
  getSize_getNum_after_grows [[65], [66, 67]] (by decide)

lemma takeWhile_eq_self_of_forall (s : List Nat)
    (h : ∀ b ∈ s, b ≠ 0) : s.takeWhile (fun b => b ≠ 0) = s := by
  simpa using h

/-- C6: `growFormatted` on a `NULL` handle fails; otherwise it renders into
the bounded 1024-byte scratch buffer and forwards the rendered bytes
(excluding the terminator) with their `strlen` to `grow`; a zero-free
rendering that exceeds the bound results in a successfully appended chunk
equal to the truncated rendering (the first 1023 bytes), not an error. -/
theorem growStrf_bounded_rendering :
    (∀ rendered : List Nat, qObstackGrowStrf none rendered = (false, none)) ∧
    (∀ (ob : Q_OBSTACK) (rendered : List Nat),
        qObstackGrowStrf (some ob) rendered
          = qObstackGrow (some ob) (some (vsnprintf1024 rendered))
              (strlen (vsnprintf1024 rendered))) ∧
    (∀ (ob : Q_OBSTACK) (rendered : List Nat), 1024 ≤ rendered.length →
        (∀ b ∈ rendered, b ≠ 0) →
        ∃ ob2 : Q_OBSTACK,
          qObstackGrowStrf (some ob) rendered = (true, some ob2) ∧
          ob2.stack.objects
            = ob.stack.objects ++ [⟨rendered.take 1023, 1023⟩]) := by
  refine ⟨fun rendered => rfl, fun ob rendered => rfl, ?_⟩
  intro ob rendered hlen hnz
  have hsub : ∀ b ∈ rendered.take 1023, b ≠ 0 := by
    intro b hb
    exact hnz b (List.mem_of_mem_take hb)
  have htw : (rendered.take 1023).takeWhile (fun b => b ≠ 0)
      = rendered.take 1023 := takeWhile_eq_self_of_forall _ hsub
  have h1023 : 1023 ≤ rendered.length :=
    le_trans (by norm_num : (1023 : Nat) ≤ 1024) hlen
  have hslen : strlen (rendered.take 1023) = 1023 := by
    rw [strlen, htw, List.length_take]
    exact Nat.min_eq_left h1023
  have htake : (rendered.take 1023).take 1023 = rendered.take 1023 := by
    simp
  refine ⟨{ ob with stack :=
      ⟨ob.stack.objects ++ [⟨rendered.take 1023, 1023⟩],
       ob.stack.size + 1023, ob.stack.num + 1⟩ }, ?_, by simp⟩
  simp [qObstackGrowStrf, vsnprintf1024, qObstackGrow, qEntryPut, hslen, htake]

/-- C6 witness: growing a formatted rendering of 1024 nonzero bytes onto a
fresh accumulator succeeds and appends exactly the first 1023 bytes. -/
theorem growStrf_bounded_rendering_witness :
    1024 ≤ (List.replicate 1024 65).length ∧
    ∃ ob2 : Q_OBSTACK,
      qObstackGrowStrf (some (mkObstack [] none)) (List.replicate 1024 65)
        = (true, some ob2) ∧
      ob2.stack.objects
        = (mkObstack [] none).stack.objects
            ++ [⟨(List.replicate 1024 65).take 1023, 1023⟩] :=
  ⟨by rw [List.length_replicate],
   growStrf_bounded_rendering.2.2 (mkObstack [] none) (List.replicate 1024 65)
     (by rw [List.length_replicate])
     (by
       intro b hb
       rw [List.eq_of_mem_replicate hb]
       norm_num)⟩

/-- C7: two consecutive `getFinal` calls with no intervening `grow` return
byte-identical buffers: whenever the first call returns a buffer, the second
returns the same one. -/
theorem getFinal_idempotent (ob : Q_OBSTACK) (a1 a2 : Bool) (b : List Nat)
    (h : (qObstackGetFinal (some ob) a1).1 = some b) :
    (qObstackGetFinal ((qObstackGetFinal (some ob) a1).2) a2).1 = some b := by
  cases hf : ob.final with
  | some c =>
    have h1 : qObstackGetFinal (some ob) a1 = (some c, some ob) := by
      simp [qObstackGetFinal, hf]
    rw [h1] at h ⊢
    simpa [qObstackGetFinal, hf] using h
  | none =>
    cases a1 with
    | false =>
      simp [qObstackGetFinal, qObstackFinish, hf] at h
    | true =>
      have h1 : qObstackGetFinal (some ob) true
          = (some (qEntryConcat ob.stack ++ [0]),
             some { ob with final := some (qEntryConcat ob.stack ++ [0]) }) := by
        simp [qObstackGetFinal, qObstackFinish, hf]
      rw [h1] at h ⊢
      simpa [qObstackGetFinal] using h

/-- C7 witness: on an accumulator holding the chunk `[65]`, the second
`getFinal` returns the same buffer `[65, 0]` as the first. -/
theorem getFinal_idempotent_witness :
    (qObstackGetFinal
        ((qObstackGetFinal (some (mkObstack [[65]] none)) true).2) true).1
      = some [65, 0] :=
  getFinal_idempotent (mkObstack [[65]] none) true true [65, 0] (by decide)

/-- C9: `growString` computes `strlen` of its (necessarily non-null) text
before any validation and always passes a non-null object to `grow`, so the
null-object failure branch of `grow` is unreachable from `growString`: the
call fails exactly when the handle is `NULL` or the measured length is 0. -/
theorem growStr_no_null_check (ob : Option Q_OBSTACK) (str : List Nat) :
    qObstackGrowStr ob str = qObstackGrow ob (some str) (strlen str) ∧
    ((qObstackGrowStr ob str).1 = false ↔ ob = none ∨ strlen str = 0) := by
  refine ⟨rfl, ?_⟩
  cases ob with
  | none => simp [qObstackGrowStr, qObstackGrow]
  | some o =>
    by_cases h : strlen str = 0 <;>
      simp [qObstackGrowStr, qObstackGrow, qEntryPut, h]

/-- C9 witness: the characterization instantiated on a fresh accumulator and
the one-byte text `[65]`. -/
theorem growStr_no_null_check_witness :
    qObstackGrowStr (some (mkObstack [] none)) [65]
      = qObstackGrow (some (mkObstack [] none)) (some [65]) (strlen [65]) ∧
    ((qObstackGrowStr (some (mkObstack [] none)) [65]).1 = false
      ↔ (some (mkObstack [] none) : Option Q_OBSTACK) = none
        ∨ strlen [65] = 0) :=
  growStr_no_null_check (some (mkObstack [] none)) [65]

/-- C10: the string growth operations append exactly the bytes before the
first zero of the (scratch-buffered) text: `growString` with a text of
positive measured length appends its zero-free front and succeeds;
`growString` of a text measuring 0 (the empty string) fails with the state
unchanged; `growFormatted` whose rendering is empty or begins with a zero
byte fails with the state unchanged, because the computed length 0 violates
the size precondition of `grow`. -/
theorem string_growth_stops_at_zero :
    (∀ (ob : Q_OBSTACK) (str : List Nat), strlen str ≠ 0 →
        ∃ ob2 : Q_OBSTACK,
          qObstackGrowStr (some ob) str = (true, some ob2) ∧
          ob2.stack.objects = ob.stack.objects
              ++ [⟨str.takeWhile (fun b => b ≠ 0), strlen str⟩] ∧
          ob2.final = ob.final) ∧
    (∀ (ob : Q_OBSTACK) (str : List Nat), strlen str = 0 →
        qObstackGrowStr (some ob) str = (false, some ob)) ∧
    (∀ (ob : Q_OBSTACK) (rendered : List Nat),
        strlen (vsnprintf1024 rendered) ≠ 0 →
        ∃ ob2 : Q_OBSTACK,
          qObstackGrowStrf (some ob) rendered = (true, some ob2) ∧
          ob2.stack.objects = ob.stack.objects
              ++ [⟨(vsnprintf1024 rendered).takeWhile (fun b => b ≠ 0),
                   strlen (vsnprintf1024 rendered)⟩] ∧
          ob2.final = ob.final) ∧
    (∀ (ob : Q_OBSTACK) (rendered : List Nat),
        rendered = [] ∨ rendered.head? = some 0 →
        qObstackGrowStrf (some ob) rendered = (false, some ob)) := by
  refine ⟨?_, ?_, ?_, ?_⟩
  · intro ob str h
    refine ⟨{ ob with stack :=
        ⟨ob.stack.objects ++ [⟨str.takeWhile (fun b => b ≠ 0), strlen str⟩],
         ob.stack.size + strlen str, ob.stack.num + 1⟩ }, ?_, by simp, rfl⟩
    simp [qObstackGrowStr, qObstackGrow, qEntryPut, h, take_strlen]
  · intro ob str h
    simp [qObstackGrowStr, qObstackGrow, h]
  · intro ob rendered h
    refine ⟨{ ob with stack :=
        ⟨ob.stack.objects
            ++ [⟨(vsnprintf1024 rendered).takeWhile (fun b => b ≠ 0),
                 strlen (vsnprintf1024 rendered)⟩],
         ob.stack.size + strlen (vsnprintf1024 rendered),
         ob.stack.num + 1⟩ }, ?_, by simp, rfl⟩
    simp [qObstackGrowStrf, qObstackGrow, qEntryPut, h, take_strlen]
  · intro ob rendered h
    rcases h with h | h
    · subst h
      rfl
    · cases rendered with
      | nil => simp at h
      | cons a t =>
        have ha : a = 0 := by simpa using h
        subst ha
        simp [qObstackGrowStrf, vsnprintf1024, strlen, qObstackGrow,
          List.takeWhile]

/-- C10 witness: `growString` of `[65, 66, 0, 67]` appends `[65, 66]`;
`growString` of the empty string fails with the state unchanged;
`growFormatted` of a rendering that begins with a zero byte fails with the
state unchanged. -/
theorem string_growth_stops_at_zero_witness :
    (∃ ob2 : Q_OBSTACK,
        qObstackGrowStr (some (mkObstack [] none)) [65, 66, 0, 67]
          = (true, some ob2) ∧
        ob2.stack.objects = (mkObstack [] none).stack.objects
            ++ [⟨[65, 66, 0, 67].takeWhile (fun b => b ≠ 0),
                 strlen [65, 66, 0, 67]⟩] ∧
        ob2.final = (mkObstack [] none).final) ∧
    qObstackGrowStr (some (mkObstack [] none)) []
      = (false, some (mkObstack [] none)) ∧
    qObstackGrowStrf (some (mkObstack [] none)) [0, 65]
      = (false, some (mkObstack [] none)) :=
  ⟨string_growth_stops_at_zero.1 _ _ (by decide),
   string_growth_stops_at_zero.2.1 _ _ (by decide),
   string_growth_stops_at_zero.2.2.2 _ _ (by decide)⟩

end QDecoder
